import Mathlib

/-
Verification development for the embedding/ingestion pipeline:
  - tools/migration/03_insert_vectorize.py  (namespace InsertVectorize)
  - tools/vectorize/02_batch_embed.py       (namespace BatchEmbed)
Remote HTTP calls are modelled by an environment function giving the outcome
of each attempt; side effects (sleeps, remote calls, cache saves) are recorded
as explicit events so that claims about them can be stated and proved.
-/

namespace InsertVectorize

/-- Batch insertion settings from 03_insert_vectorize.py. -/
def BATCH_SIZE : Nat := 100

def MAX_RETRIES : Nat := 3

/-- Retry delay in seconds. -/
def RETRY_DELAY : Nat := 5

/-- A vector record as sent to the bulk-insert endpoint:
id plus its values (float contents abstracted to integers; no claim
inspects the numeric values themselves). -/
structure Vec where
  id : String
  values : List Int
  deriving DecidableEq

/-- Outcome of one HTTP POST to the Vectorize insert endpoint:
the request succeeds with success=true, returns success=false in the JSON
body, or raises (transport error, timeout, or raise_for_status on an HTTP
error status). -/
inductive Outcome where
  | ok : Outcome
  | apiFalse : Outcome
  | exn : Outcome
  deriving DecidableEq

/-- Mutable fields of VectorizeInserter. -/
structure InserterState where
  inserted_count : Nat
  failed_ids : List String
  deriving DecidableEq

/-- Result of one insert_batch call: the returned Bool, the updated inserter
state, the number of HTTP attempts made, and the sleep durations (seconds)
performed, in order. -/
structure InsertResult where
  success : Bool
  state : InserterState
  attempts : Nat
  sleeps : List Nat
  deriving DecidableEq

/-- VectorizeInserter.insert_batch. The environment gives the outcome of the
attempt made with a given retry_count. On Outcome.ok the inserted counter
grows by the batch size and True is returned. On Outcome.apiFalse (an
explicit success=false JSON response) the function returns False at once:
the retry logic sits in the except-block only. On Outcome.exn, while
retry_count < MAX_RETRIES the function sleeps RETRY_DELAY and recurses on
the same vectors with retry_count + 1; once retries are exhausted every id
of the batch is appended to failed_ids and False is returned. -/
def insert_batch (env : Nat → Outcome) (vectors : List Vec) (retry_count : Nat)
    (st : InserterState) : InsertResult :=
  match env retry_count with
  | Outcome.ok =>
      { success := true
        state := { st with inserted_count := st.inserted_count + vectors.length }
        attempts := 1
        sleeps := [] }
  | Outcome.apiFalse =>
      { success := false, state := st, attempts := 1, sleeps := [] }
  | Outcome.exn =>
      if h : retry_count < MAX_RETRIES then
        let r := insert_batch env vectors (retry_count + 1) st
        { success := r.success
          state := r.state
          attempts := r.attempts + 1
          sleeps := RETRY_DELAY :: r.sleeps }
      else
        { success := false
          state := { st with failed_ids := st.failed_ids ++ vectors.map Vec.id }
          attempts := 1
          sleeps := [] }
termination_by MAX_RETRIES - retry_count
decreasing_by omega

end InsertVectorize

namespace BatchEmbed

/-- Rate limiting configuration from 02_batch_embed.py. -/
def REQUESTS_PER_MINUTE : Nat := 50

def BATCH_SIZE : Nat := 10

/-- A curriculum lesson record. The fields read with a bracket lookup in the
source (title, tacticalConcept, historicalValidator, id) are mandatory; phase
and moduleId are read with dict.get and may be absent. -/
structure Lesson where
  id : String
  title : String
  tacticalConcept : String
  historicalValidator : String
  phase : Option String
  moduleId : Option Int
  deriving DecidableEq

/-- EmbeddingGenerator.create_lesson_text: deterministic text representation,
format TITLE | CONCEPT | VALIDATOR | Phase: PHASE, where a missing phase is
replaced by the sentinel UNKNOWN via dict.get. -/
def create_lesson_text (lesson : Lesson) : String :=
  lesson.title ++ " | " ++ lesson.tacticalConcept ++ " | " ++
    lesson.historicalValidator ++ " | Phase: " ++ lesson.phase.getD "UNKNOWN"

/-- One value of the embeddings_cache dict: the vector (float contents
abstracted to integers), the exact text embedded, and the metadata fields. -/
structure CacheEntry where
  vector : List Int
  text : String
  title : String
  phase : Option String
  module_id : Option Int
  concept : String
  deriving DecidableEq

/-- The embeddings_cache dict: insertion-ordered association list keyed by
lesson id. -/
abbrev Cache := List (String × CacheEntry)

/-- Dict key lookup. -/
def lookupCache (c : Cache) (k : String) : Option CacheEntry :=
  match c with
  | [] => none
  | (k2, v) :: rest => if k = k2 then some v else lookupCache rest k

/-- Dict assignment: replace in place when the key exists, append otherwise
(Python dicts preserve insertion order). -/
def putCache (c : Cache) (k : String) (v : CacheEntry) : Cache :=
  match c with
  | [] => [(k, v)]
  | (k2, w) :: rest => if k = k2 then (k, v) :: rest else (k2, w) :: putCache rest k v

/-- Observable side effects of the generator loop: one remote embedding call
(lesson id and the exact text sent), one rate-limit pause (duration in
seconds, exact rational), or one cache save with the snapshot written. -/
inductive EmbedEvent where
  | remoteCall (lessonId : String) (text : String)
  | ratePause (seconds : Rat)
  | saveCache (snapshot : Cache)
  deriving DecidableEq

/-- The generator loop state: the cache plus the embedded/skipped/failed
counters of batch_embed_lessons. -/
structure GenState where
  cache : Cache
  embedded : Nat
  skipped : Nat
  failed : Nat
  deriving DecidableEq

/-- The duration of one rate-limit pause: 60 / REQUESTS_PER_MINUTE *
BATCH_SIZE seconds (Python true division, hence rationals). -/
def pause_seconds : Rat := 60 / (REQUESTS_PER_MINUTE : Rat) * (BATCH_SIZE : Rat)

/-- One iteration of the loop in EmbeddingGenerator.batch_embed_lessons, for
the record at 1-based index i. The environment gives the value returned by
generate_embedding at index i: none models a transport error, HTTP error,
or unexpected response shape (generate_embedding returns None), and some v
models a well-formed success response carrying vector v. A cache hit with
force_regen false increments skipped and continues: the rate-limit pause
and the periodic save at the bottom of the loop body are skipped too.
Otherwise a remote call is made; the returned value is tested by Python
truthiness (if embedding:), so an empty list counts as a failure and writes
no cache entry. The pause fires when i is a multiple of BATCH_SIZE and the
periodic save when i is a multiple of 20. -/
def processLesson (env : Nat → Option (List Int)) (force_regen : Bool) (i : Nat)
    (lesson : Lesson) (s : GenState) : GenState × List EmbedEvent :=
  if (lookupCache s.cache lesson.id).isSome && !force_regen then
    ({ s with skipped := s.skipped + 1 }, [])
  else
    let lesson_text := create_lesson_text lesson
    let s2 :=
      match env i with
      | some embedding =>
          if embedding ≠ [] then
            { s with
                cache := putCache s.cache lesson.id
                  { vector := embedding
                    text := lesson_text
                    title := lesson.title
                    phase := lesson.phase
                    module_id := lesson.moduleId
                    concept := lesson.tacticalConcept }
                embedded := s.embedded + 1 }
          else
            { s with failed := s.failed + 1 }
      | none => { s with failed := s.failed + 1 }
    let ev2 : List EmbedEvent :=
      if i % BATCH_SIZE = 0 then [EmbedEvent.ratePause pause_seconds] else []
    let ev3 : List EmbedEvent :=
      if i % 20 = 0 then [EmbedEvent.saveCache s2.cache] else []
    (s2, EmbedEvent.remoteCall lesson.id lesson_text :: (ev2 ++ ev3))

/-- The enumerated loop of batch_embed_lessons over (index, lesson) pairs. -/
def embedLoop (env : Nat → Option (List Int)) (force_regen : Bool) :
    List (Nat × Lesson) → GenState → GenState × List EmbedEvent
  | [], s => (s, [])
  | (i, lesson) :: rest, s =>
      let r1 := processLesson env force_regen i lesson s
      let r2 := embedLoop env force_regen rest r1.1
      (r2.1, r1.2 ++ r2.2)

/-- enumerate(lessons, start): 1-based indices are produced with start = 1. -/
def enumFrom (start : Nat) : List Lesson → List (Nat × Lesson)
  | [] => []
  | l :: rest => (start, l) :: enumFrom (start + 1) rest

/-- EmbeddingGenerator.batch_embed_lessons: run the loop over the enumerated
lessons, then perform the final unconditional cache save. -/
def batch_embed_lessons (env : Nat → Option (List Int)) (lessons : List Lesson)
    (force_regen : Bool) (s0 : GenState) : GenState × List EmbedEvent :=
  let r := embedLoop env force_regen (enumFrom 1 lessons) s0
  (r.1, r.2 ++ [EmbedEvent.saveCache r.1.cache])

/-- The rate-pause durations among a list of events, in order. -/
def pauseValues (es : List EmbedEvent) : List Rat :=
  es.filterMap fun e =>
    match e with
    | EmbedEvent.ratePause q => some q
    | _ => none

/-- The lesson ids of the remote embedding calls among a list of events. -/
def remoteCallIds (es : List EmbedEvent) : List String :=
  es.filterMap fun e =>
    match e with
    | EmbedEvent.remoteCall lessonId _ => some lessonId
    | _ => none

/-- A persisted JSON document on disk: absent, present but unparseable, or
present with a parsed value. -/
inductive JsonFile (α : Type) where
  | absent : JsonFile α
  | corrupt : JsonFile α
  | valid : α → JsonFile α

/-- EmbeddingGenerator._load_cache: when the cache file exists its contents
are passed to json.load with no surrounding try/except, so a corrupt file
raises (modelled as Except.error) and the exception propagates out of the
constructor; an absent file leaves the cache empty. -/
def load_cache : JsonFile Cache → Except Unit Cache
  | JsonFile.absent => Except.ok []
  | JsonFile.corrupt => Except.error ()
  | JsonFile.valid c => Except.ok c

/-- File-system operations _save_cache can be described with, including the
temp-write and atomic-rename operations an atomic overwrite would use. -/
inductive FsOp where
  | mkdirParents (path : String)
  | writeFile (path : String) (content : Cache)
  | writeTempFile (path : String) (content : Cache)
  | renameReplace (src dst : String)
  deriving DecidableEq

/-- The fixed path of the persisted cache document. -/
def cache_file : String := "data/embeddings/lesson_vectors.json"

/-- EmbeddingGenerator._save_cache: mkdir the parent directory, then open the
cache file itself for writing (truncating it) and json.dump into it. No
temporary file and no rename is involved. -/
def save_cache_ops (c : Cache) : List FsOp :=
  [FsOp.mkdirParents "data/embeddings", FsOp.writeFile cache_file c]

/-- Whether an operation belongs to a write-temp-then-rename protocol. -/
def atomicProtocolOp : FsOp → Bool
  | FsOp.writeTempFile _ _ => true
  | FsOp.renameReplace _ _ => true
  | _ => false

/-- Durable states of the cache file on disk. FileState.truncated is the
state after open(path, w-mode) has truncated the file but json.dump has not
completed: neither the old snapshot nor the new one. -/
inductive FileState where
  | missing : FileState
  | truncated : FileState
  | content : Cache → FileState
  deriving DecidableEq

/-- Intermediate durable states the cache file passes through while an
operation runs: a direct write to the cache file first truncates it;
mkdir does not touch it, a temp-file write targets another path, and a
rename onto it is atomic (no intermediate state). -/
def midStates : FsOp → FileState → List FileState
  | FsOp.writeFile p _, _ => if p = cache_file then [FileState.truncated] else []
  | _, _ => []

/-- Effect of one completed operation on the cache file. Temp writes target
another path; a rename of a temp file onto the cache file installs the temp
content, which this single-file model does not track and no operation
emitted by save_cache_ops performs. -/
def applyOp : FsOp → FileState → FileState
  | FsOp.writeFile p c, fs => if p = cache_file then FileState.content c else fs
  | _, fs => fs

/-- All durable states the cache file can be left in if the process crashes
at any point before, during, or after the operations of the list. -/
def crashStates : List FsOp → FileState → List FileState
  | [], fs => [fs]
  | op :: rest, fs => fs :: (midStates op fs ++ crashStates rest (applyOp op fs))

/-- The two credential environment variables read at module import. -/
structure Config where
  account_id : Option String
  api_token : Option String

/-- Python truthiness of an os.getenv result: false for an unset variable
(None) and for the empty string. -/
def envTruthy : Option String → Bool
  | none => false
  | some s => !s.isEmpty

/-- The process entry point of 02_batch_embed.py: the dunder-main guard exits
with code 1 when either credential is falsy; main returns early (exit code 0)
when the curriculum file is absent or its lesson list is empty; a corrupt
curriculum file or a corrupt embeddings cache raises an uncaught exception
(exit code 1). Otherwise batch_embed_lessons runs with force_regen false
and the process exits 0. The result is the exit code paired with the
events of the run; every early exit happens before any remote call. -/
def script_main (cfg : Config) (curriculum : JsonFile (List Lesson))
    (cacheF : JsonFile Cache) (env : Nat → Option (List Int)) :
    Nat × List EmbedEvent :=
  if !envTruthy cfg.account_id || !envTruthy cfg.api_token then
    (1, [])
  else
    match curriculum with
    | JsonFile.absent => (0, [])
    | JsonFile.corrupt => (1, [])
    | JsonFile.valid lessons =>
        if lessons.isEmpty then
          (0, [])
        else
          match load_cache cacheF with
          | Except.error _ => (1, [])
          | Except.ok cache0 =>
              let r := batch_embed_lessons env lessons false
                { cache := cache0, embedded := 0, skipped := 0, failed := 0 }
              (0, r.2)

/-- A concrete lesson used by closed witness and counterexample statements. -/
def mkLesson (n : String) : Lesson :=
  { id := n, title := "Title " ++ n, tacticalConcept := "Concept"
    historicalValidator := "Validator", phase := some "EXPANSION"
    moduleId := some 1 }

/-- A concrete cache entry used by closed witness and counterexample
statements. -/
def demoEntry : CacheEntry :=
  { vector := [1, 2], text := "t", title := "T", phase := some "EXPANSION"
    module_id := some 1, concept := "Concept" }

/-- A concrete lesson whose optional phase field is absent. -/
def noPhaseLesson : Lesson :=
  { id := "L01", title := "T", tacticalConcept := "C"
    historicalValidator := "V", phase := none, moduleId := none }

/-- Ten concrete lessons: exactly one full rate-limit sub-batch. -/
def tenLessons : List Lesson :=
  [mkLesson "L01", mkLesson "L02", mkLesson "L03", mkLesson "L04",
   mkLesson "L05", mkLesson "L06", mkLesson "L07", mkLesson "L08",
   mkLesson "L09", mkLesson "L10"]

end BatchEmbed

namespace InsertVectorize

/-- Helper: when every attempt raises, insert_batch starting at retry_count r
performs exactly MAX_RETRIES - r + 1 attempts with MAX_RETRIES - r sleeps of
RETRY_DELAY, appends all batch ids to failed_ids, and leaves the inserted
counter unchanged. Proved by induction on the remaining retry budget. -/
theorem insert_batch_all_exn_aux (env : Nat → Outcome) (vectors : List Vec)
    (st : InserterState) :
    ∀ n r, MAX_RETRIES - r = n → (∀ k, env k = Outcome.exn) →
    insert_batch env vectors r st =
      { success := false
        state := { st with failed_ids := st.failed_ids ++ vectors.map Vec.id }
        attempts := n + 1
        sleeps := List.replicate n RETRY_DELAY } := by
  intro n
  induction n with
  | zero =>
      intro r hn hexn
      rw [insert_batch, hexn r]
      have hge : ¬ r < MAX_RETRIES := by omega
      simp [hge]
  | succ m ih =>
      intro r hn hexn
      rw [insert_batch, hexn r]
      have hlt : r < MAX_RETRIES := by omega
      have hrec := ih (r + 1) (by omega) hexn
      simp only [hlt, dif_pos, hrec, List.replicate_succ]

/-- Helper: for any environment, batch, starting retry_count and state,
the number of HTTP attempts is bounded by the remaining retry budget plus
one. -/
theorem insert_batch_attempts_le_aux (env : Nat → Outcome) (vectors : List Vec)
    (st : InserterState) :
    ∀ n r, MAX_RETRIES - r ≤ n →
    (insert_batch env vectors r st).attempts ≤ n + 1 := by
  intro n
  induction n with
  | zero =>
      intro r hn
      rw [insert_batch]
      cases henv : env r with
      | ok => simp
      | apiFalse => simp
      | exn =>
          have hge : ¬ r < MAX_RETRIES := by omega
          simp [hge]
  | succ m ih =>
      intro r hn
      rw [insert_batch]
      cases henv : env r with
      | ok => simp
      | apiFalse => simp
      | exn =>
          by_cases hlt : r < MAX_RETRIES
          · have hrec := ih (r + 1) (by omega)
            simp only [hlt, dif_pos]
            omega
          · simp [hlt]

/-- C1 counterexample: the claim says an explicit success=false response with
retry_count < MAX_RETRIES is retried after a RETRY_DELAY wait. At
retry_count 0 (and 0 < MAX_RETRIES) an environment answering success=false
makes insert_batch return after a single attempt with no sleep and no
retry: the retry logic sits only in the exception handler. -/
theorem insert_batch_api_false_no_retry_cex :
    0 < MAX_RETRIES ∧
    insert_batch (fun _ => Outcome.apiFalse) [{ id := "L01", values := [1] }] 0
      { inserted_count := 0, failed_ids := [] } =
    { success := false, state := { inserted_count := 0, failed_ids := [] }
      attempts := 1, sleeps := [] } := by
  constructor
  · decide
  · simp [insert_batch]

/-- C1 amended: on a transport/HTTP failure (a raised exception) with
retry_count < MAX_RETRIES, insert_batch waits the constant RETRY_DELAY and
retries the same batch with retry_count + 1; an explicit success=false
response is not retried. The retried call receives the identical vectors
argument, so retries are per-batch with a constant backoff interval. -/
theorem insert_batch_exn_retries_same_batch (env : Nat → Outcome)
    (vectors : List Vec) (retry_count : Nat) (st : InserterState)
    (hexn : env retry_count = Outcome.exn) (hlt : retry_count < MAX_RETRIES) :
    insert_batch env vectors retry_count st =
      { success := (insert_batch env vectors (retry_count + 1) st).success
        state := (insert_batch env vectors (retry_count + 1) st).state
        attempts := (insert_batch env vectors (retry_count + 1) st).attempts + 1
        sleeps := RETRY_DELAY ::
          (insert_batch env vectors (retry_count + 1) st).sleeps } := by
  conv_lhs => rw [insert_batch]
  rw [hexn]
  simp [hlt]

/-- Witness for the C1 amended theorem at a concrete input. -/
theorem insert_batch_exn_retries_same_batch_witness :
    insert_batch (fun _ => Outcome.exn) [{ id := "W1", values := [1] }] 0
      { inserted_count := 0, failed_ids := [] } =
      { success := (insert_batch (fun _ => Outcome.exn)
          [{ id := "W1", values := [1] }] 1
          { inserted_count := 0, failed_ids := [] }).success
        state := (insert_batch (fun _ => Outcome.exn)
          [{ id := "W1", values := [1] }] 1
          { inserted_count := 0, failed_ids := [] }).state
        attempts := (insert_batch (fun _ => Outcome.exn)
          [{ id := "W1", values := [1] }] 1
          { inserted_count := 0, failed_ids := [] }).attempts + 1
        sleeps := RETRY_DELAY :: (insert_batch (fun _ => Outcome.exn)
          [{ id := "W1", values := [1] }] 1
          { inserted_count := 0, failed_ids := [] }).sleeps } :=
  insert_batch_exn_retries_same_batch (fun _ => Outcome.exn)
    [{ id := "W1", values := [1] }] 0
    { inserted_count := 0, failed_ids := [] } rfl (by decide)

/-- C2 counterexample: a batch whose every attempt fails — the service
answers success=false each time — is retried zero additional times (one
attempt, not MAX_RETRIES + 1 = 4) and no id of the batch is appended to
failed_ids, refuting the claim that such a batch is retried MAX_RETRIES
times and then fully marked failed. -/
theorem insert_batch_api_false_not_marked_failed_cex :
    MAX_RETRIES = 3 ∧
    insert_batch (fun _ => Outcome.apiFalse) [{ id := "L02", values := [2] }] 0
      { inserted_count := 7, failed_ids := ["OLD"] } =
    { success := false, state := { inserted_count := 7, failed_ids := ["OLD"] }
      attempts := 1, sleeps := [] } := by
  constructor
  · rfl
  · simp [insert_batch]

/-- C2 amended: a batch whose every attempt raises (transport/HTTP failure)
is retried exactly MAX_RETRIES additional times after the initial attempt
(MAX_RETRIES + 1 attempts in all, with MAX_RETRIES constant sleeps); then
every id of the batch is appended to failed_ids and the inserted counter is
unchanged — no entry of the batch is counted as succeeded. A batch that
fails with an explicit success=false response instead returns after one
attempt with no id marked failed. -/
theorem insert_batch_all_exn_exhausts_retries (env : Nat → Outcome)
    (vectors : List Vec) (st : InserterState)
    (hexn : ∀ k, env k = Outcome.exn) :
    insert_batch env vectors 0 st =
      { success := false
        state := { st with failed_ids := st.failed_ids ++ vectors.map Vec.id }
        attempts := MAX_RETRIES + 1
        sleeps := List.replicate MAX_RETRIES RETRY_DELAY } :=
  insert_batch_all_exn_aux env vectors st MAX_RETRIES 0 (by omega) hexn

/-- Witness for the C2 amended theorem at a concrete input. -/
theorem insert_batch_all_exn_exhausts_retries_witness :
    insert_batch (fun _ => Outcome.exn)
      [{ id := "W2", values := [2] }, { id := "W3", values := [3] }] 0
      { inserted_count := 0, failed_ids := [] } =
      { success := false
        state := { inserted_count := 0, failed_ids := ["W2", "W3"] }
        attempts := MAX_RETRIES + 1
        sleeps := List.replicate MAX_RETRIES RETRY_DELAY } := by
  have h := insert_batch_all_exn_exhausts_retries (fun _ => Outcome.exn)
    [{ id := "W2", values := [2] }, { id := "W3", values := [3] }]
    { inserted_count := 0, failed_ids := [] } (fun _ => rfl)
  simpa using h

/-- C10: insert_batch terminates on every input, and for every environment,
batch, state, and starting retry_count it performs at most MAX_RETRIES + 1
attempts before returning: recursion happens only while
retry_count < MAX_RETRIES and each self-call increases retry_count by
one. -/
theorem insert_batch_attempts_bounded (env : Nat → Outcome) (vectors : List Vec)
    (retry_count : Nat) (st : InserterState) :
    (insert_batch env vectors retry_count st).attempts ≤ MAX_RETRIES + 1 :=
  insert_batch_attempts_le_aux env vectors st MAX_RETRIES retry_count (by omega)

end InsertVectorize

namespace BatchEmbed

/-- C3 counterexample: loading a corrupt persisted cache does not degrade to
an empty mapping — json.load runs with no surrounding try/except, so the
parse error propagates and terminates the run. -/
theorem load_cache_corrupt_raises_cex :
    load_cache (JsonFile.corrupt : JsonFile Cache) = Except.error () ∧
    load_cache (JsonFile.corrupt : JsonFile Cache) ≠ Except.ok [] := by
  constructor
  · rfl
  · intro h
    simp [load_cache] at h

/-- C3 amended: an absent cache file yields the empty mapping and a valid
file yields its contents, but a corrupt (unparseable) cache raises an
uncaught exception that terminates the run — there is no degradation to an
empty mapping and no warning path for corruption. -/
theorem load_cache_behavior :
    load_cache (JsonFile.absent : JsonFile Cache) = Except.ok [] ∧
    load_cache (JsonFile.corrupt : JsonFile Cache) = Except.error () ∧
    ∀ c : Cache, load_cache (JsonFile.valid c) = Except.ok c :=
  ⟨rfl, rfl, fun _ => rfl⟩

/-- C4 counterexample: flushing the cache opens the final cache file itself
for writing, so a crash between the truncation and the completed dump
leaves the file in the truncated state — which is not the previously
persisted snapshot — and the emitted operations contain no temp-file write
and no rename. -/
theorem save_cache_crash_corrupts_cex :
    FileState.truncated ∈
      crashStates (save_cache_ops [("L01", demoEntry)])
        (FileState.content []) ∧
    FileState.truncated ≠ FileState.content ([] : Cache) ∧
    (save_cache_ops [("L01", demoEntry)]).any atomicProtocolOp = false := by
  refine ⟨?_, ?_, ?_⟩ <;> decide

/-- C4 amended: _save_cache writes directly to the final cache path (mkdir of
the parent, then truncate-and-write of the cache file itself) with no
temporary file and no rename; consequently, for every cache being flushed
and every previously persisted snapshot there is a crash point mid-flush
that leaves the durable file truncated, i.e. corrupts the previous
snapshot. -/
theorem save_cache_not_atomic (c old : Cache) :
    FileState.truncated ∈
      crashStates (save_cache_ops c) (FileState.content old) ∧
    (save_cache_ops c).any atomicProtocolOp = false := by
  constructor
  · simp [save_cache_ops, crashStates, midStates, applyOp]
  · simp [save_cache_ops, atomicProtocolOp]

/-- C5 counterexample: with valid credentials but an empty lesson list, the
run aborts before any remote call yet the process exits 0 — main prints a
message and returns normally — contradicting the claimed non-zero exit. -/
theorem script_main_empty_lessons_exit_zero_cex :
    script_main { account_id := some "acct", api_token := some "tok" }
      (JsonFile.valid []) (JsonFile.valid []) (fun _ => none) = (0, []) := rfl

/-- C5 amended: missing or empty credential variables exit with code 1 and
no side effects (no remote call is made); an absent curriculum file or an
empty lesson list also aborts before any remote call or side effect, but
the process exits 0, not non-zero. -/
theorem script_main_precondition_exits (cfg : Config)
    (curriculum : JsonFile (List Lesson)) (cacheF : JsonFile Cache)
    (env : Nat → Option (List Int)) :
    ((envTruthy cfg.account_id = false ∨ envTruthy cfg.api_token = false) →
      script_main cfg curriculum cacheF env = (1, [])) ∧
    (envTruthy cfg.account_id = true → envTruthy cfg.api_token = true →
      script_main cfg (JsonFile.valid []) cacheF env = (0, []) ∧
      script_main cfg JsonFile.absent cacheF env = (0, [])) := by
  constructor
  · intro h
    rcases h with h | h <;> simp [script_main, h]
  · intro h1 h2
    constructor <;> simp [script_main, h1, h2]

/-- Witness for the C5 amended theorem at concrete inputs. -/
theorem script_main_precondition_exits_witness :
    script_main { account_id := none, api_token := some "tok" }
      (JsonFile.valid [mkLesson "L01"]) (JsonFile.valid [])
      (fun _ => none) = (1, []) ∧
    script_main { account_id := some "acct", api_token := some "tok" }
      (JsonFile.valid []) (JsonFile.valid []) (fun _ => none) = (0, []) :=
  ⟨(script_main_precondition_exits
      { account_id := none, api_token := some "tok" }
      (JsonFile.valid [mkLesson "L01"]) (JsonFile.valid [])
      (fun _ => none)).1 (Or.inl rfl),
   ((script_main_precondition_exits
      { account_id := some "acct", api_token := some "tok" }
      (JsonFile.valid []) (JsonFile.valid [])
      (fun _ => none)).2 (by decide) (by decide)).1⟩

/-- C6 counterexample: ten lessons form exactly one rate-limit sub-batch, and
every remote call of the run succeeds; yet because the tenth lesson is a
cache hit, its continue bypasses the pause at the bottom of the loop body
and the whole run emits no rate-limit pause at all (nine remote calls were
made), refuting the claim that the pause applies regardless of cache-hit
status. -/
theorem rate_pause_skipped_on_cache_hit_cex :
    tenLessons.length = BATCH_SIZE ∧
    pauseValues (batch_embed_lessons (fun _ => some [5]) tenLessons false
      { cache := [("L10", demoEntry)], embedded := 0, skipped := 0,
        failed := 0 }).2 = [] ∧
    (remoteCallIds (batch_embed_lessons (fun _ => some [5]) tenLessons false
      { cache := [("L10", demoEntry)], embedded := 0, skipped := 0,
        failed := 0 }).2).length = 9 := by
  refine ⟨?_, ?_, ?_⟩ <;> decide

/-- C6 amended: when the record at 1-based position i is not a cache skip,
the iteration emits exactly one rate-limit pause of
60 / REQUESTS_PER_MINUTE * BATCH_SIZE = 12 seconds precisely when i is a
multiple of BATCH_SIZE, regardless of the success, failure, or returned
shape of the remote call; but a cache hit (with force_regen false)
continues past the pause, so its iteration emits no pause even at a
sub-batch boundary. -/
theorem rate_pause_after_full_subbatch (env : Nat → Option (List Int))
    (i : Nat) (lesson : Lesson) (s : GenState) :
    (lookupCache s.cache lesson.id = none →
      pauseValues (processLesson env false i lesson s).2 =
        if i % BATCH_SIZE = 0 then [pause_seconds] else []) ∧
    ((lookupCache s.cache lesson.id).isSome = true →
      pauseValues (processLesson env false i lesson s).2 = []) ∧
    pause_seconds = 12 := by
  refine ⟨?_, ?_, ?_⟩
  · intro h
    simp only [processLesson, h, Option.isSome_none, Bool.false_and,
      Bool.false_eq_true, if_false]
    split_ifs <;> simp [pauseValues]
  · intro h
    simp [processLesson, h, pauseValues]
  · norm_num [pause_seconds, REQUESTS_PER_MINUTE, BATCH_SIZE]

/-- Witness for the C6 amended theorem at a concrete input. -/
theorem rate_pause_after_full_subbatch_witness :
    pauseValues (processLesson (fun _ => some [5]) false 10 (mkLesson "L01")
      { cache := [], embedded := 0, skipped := 0, failed := 0 }).2 =
      [pause_seconds] := by
  have h := (rate_pause_after_full_subbatch (fun _ => some [5]) 10
    (mkLesson "L01")
    { cache := [], embedded := 0, skipped := 0, failed := 0 }).1 rfl
  simpa [BATCH_SIZE] using h

/-- C7: for a record whose optional phase field is missing,
create_lesson_text neither raises nor drops the field: it substitutes the
sentinel UNKNOWN — yielding the same string as a record whose phase is the
literal UNKNOWN — in the fixed field order and separators, and the result
differs from what an empty-string substitution would give. The function is
pure, so the output is deterministic and side-effect free. -/
theorem create_lesson_text_unknown_sentinel (lesson : Lesson)
    (h : lesson.phase = none) :
    create_lesson_text lesson =
      lesson.title ++ " | " ++ lesson.tacticalConcept ++ " | " ++
        lesson.historicalValidator ++ " | Phase: " ++ "UNKNOWN" ∧
    create_lesson_text lesson =
      create_lesson_text { lesson with phase := some "UNKNOWN" } ∧
    create_lesson_text lesson ≠
      lesson.title ++ " | " ++ lesson.tacticalConcept ++ " | " ++
        lesson.historicalValidator ++ " | Phase: " ++ "" := by
  refine ⟨?_, ?_, ?_⟩
  · simp [create_lesson_text, h]
  · simp [create_lesson_text, h]
  · intro heq
    have hlen := congrArg String.length heq
    simp [create_lesson_text, h, String.length_append] at hlen
    exact absurd hlen (by decide)

/-- Witness for the C7 theorem at a concrete record with no phase. -/
theorem create_lesson_text_unknown_sentinel_witness :
    noPhaseLesson.phase = none ∧
    create_lesson_text noPhaseLesson =
      noPhaseLesson.title ++ " | " ++ noPhaseLesson.tacticalConcept ++ " | " ++
        noPhaseLesson.historicalValidator ++ " | Phase: " ++ "UNKNOWN" :=
  ⟨rfl, (create_lesson_text_unknown_sentinel noPhaseLesson rfl).1⟩

/-- Helper: with force_regen false and every lesson id present in the cache,
the generator loop emits no events, leaves the cache and counters except
skipped unchanged, and counts every lesson as skipped. -/
theorem embedLoop_all_cached (env : Nat → Option (List Int))
    (lessons : List Lesson) :
    ∀ (k : Nat) (s : GenState),
    (∀ l ∈ lessons, (lookupCache s.cache l.id).isSome = true) →
    embedLoop env false (enumFrom k lessons) s =
      ({ s with skipped := s.skipped + lessons.length }, []) := by
  induction lessons with
  | nil => intro k s h; simp [enumFrom, embedLoop]
  | cons l rest ih =>
      intro k s h
      have hl := h l (List.mem_cons_self l rest)
      have hrest := ih (k + 1) { s with skipped := s.skipped + 1 }
        (fun x hx => h x (List.mem_cons_of_mem l hx))
      simp only [enumFrom, embedLoop, processLesson, hl, Bool.not_false,
        Bool.and_true, if_true, hrest]
      simp [Nat.add_assoc, Nat.add_comm 1 rest.length]

/-- C8: with force_regen false, a record whose id has a cache entry is
skipped with no events at all — in particular zero remote embedding calls —
and the generator state keeps the identical cache, so the cached entry
(vector included) is unchanged; consequently, over a fully populated cache
the whole run emits no remote call, only the final save of the untouched
cache, and reports every record as skipped. -/
theorem cache_hit_skips_and_preserves (env : Nat → Option (List Int)) (i : Nat)
    (lesson : Lesson) (lessons : List Lesson) (s : GenState) :
    ((lookupCache s.cache lesson.id).isSome = true →
      processLesson env false i lesson s =
        ({ s with skipped := s.skipped + 1 }, [])) ∧
    ((∀ l ∈ lessons, (lookupCache s.cache l.id).isSome = true) →
      batch_embed_lessons env lessons false s =
        ({ s with skipped := s.skipped + lessons.length },
         [EmbedEvent.saveCache s.cache])) := by
  constructor
  · intro h
    simp [processLesson, h]
  · intro h
    simp [batch_embed_lessons, embedLoop_all_cached env lessons 1 s h]

/-- Witness for the C8 theorem at a concrete fully cached run. -/
theorem cache_hit_skips_and_preserves_witness :
    batch_embed_lessons (fun _ => some [5]) [mkLesson "L01"] false
      { cache := [("L01", demoEntry)], embedded := 0, skipped := 0,
        failed := 0 } =
      ({ cache := [("L01", demoEntry)], embedded := 0, skipped := 1,
         failed := 0 },
       [EmbedEvent.saveCache [("L01", demoEntry)]]) := by
  have h := (cache_hit_skips_and_preserves (fun _ => some [5]) 1
    (mkLesson "L01") [mkLesson "L01"]
    { cache := [("L01", demoEntry)], embedded := 0, skipped := 0,
      failed := 0 }).2 (by decide)
  simpa using h

/-- C9: when the service answers a well-formed success response whose vector
is the empty list, the record is counted as failed and no cache entry is
written for it — the cache is unchanged — because the returned value is
tested by Python truthiness (if embedding:) and the empty list is falsy;
the remote call itself was made. -/
theorem empty_vector_counts_failed (env : Nat → Option (List Int)) (i : Nat)
    (lesson : Lesson) (s : GenState)
    (hmiss : lookupCache s.cache lesson.id = none)
    (hempty : env i = some []) :
    (processLesson env false i lesson s).1 =
      { s with failed := s.failed + 1 } ∧
    EmbedEvent.remoteCall lesson.id (create_lesson_text lesson) ∈
      (processLesson env false i lesson s).2 := by
  constructor
  · simp [processLesson, hmiss, hempty]
  · simp [processLesson, hmiss, hempty]

/-- Witness for the C9 theorem at a concrete input. -/
theorem empty_vector_counts_failed_witness :
    (processLesson (fun _ => some []) false 1 (mkLesson "L01")
      { cache := [], embedded := 0, skipped := 0, failed := 0 }).1 =
      { cache := [], embedded := 0, skipped := 0, failed := 1 } ∧
    EmbedEvent.remoteCall "L01" (create_lesson_text (mkLesson "L01")) ∈
      (processLesson (fun _ => some []) false 1 (mkLesson "L01")
        { cache := [], embedded := 0, skipped := 0, failed := 0 }).2 := by
  have h := empty_vector_counts_failed (fun _ => some []) 1 (mkLesson "L01")
    { cache := [], embedded := 0, skipped := 0, failed := 0 } rfl rfl
  simpa [mkLesson] using h

end BatchEmbed
